import Mathlib

/-!
Verification of the ground-item pickup controller
(`src/internal/action/step/pickup_item.go`).

The retry loop `PickupItem`, its helpers `findItemOnGround`,
`verifyPickupConditions`, `abs` and `hasHostileMonstersNearby` are embedded
from the Go source.  External collaborators (world-state provider, input
device, spatial queries, movement action) are modelled as oracles: each loop
iteration receives an `IterEnv` carrying the world snapshots observed at each
read point, the wall clock value, and the cursor read-back.  Wall-clock time
is milliseconds as `Nat`; one clock value per iteration stands for all the
`time.Now`/`time.Since` reads of that iteration.
-/

namespace KooloPickup

/-- 2-D game-space position (d2go `data.Position`). -/
structure Position where
  x : Int
  y : Int
deriving DecidableEq, Repr

/-- d2go `Position.Equal`: componentwise equality. -/
def Position.equal (a b : Position) : Bool :=
  a.x == b.x && a.y == b.y

/-- Player mode (d2go `mode` package; only the modes the spec names, plus
`idle` and `dead` as representatives of the non-busy modes). -/
inductive Mode where
  | casting
  | walking
  | running
  | walkingInTown
  | idle
  | dead
deriving DecidableEq, Repr

/-- A ground item (d2go `data.Item`): stable unit id, position, whether the
game reports it hovered, and its display name (`Desc().Name`). -/
structure Item where
  unitID : Nat
  position : Position
  isHovered : Bool
  name : String
deriving DecidableEq, Repr

/-- A hostile monster: position and remaining life (`Stats[stat.Life]`). -/
structure Monster where
  position : Position
  life : Int
deriving DecidableEq, Repr

/-- One snapshot of the world state (`ctx.Data`): player position and mode,
the ground-item collection (`Inventory.ByLocation(LocationGround)`), and the
hostile monsters (`Monsters.Enemies()`). -/
structure GameData where
  playerPos : Position
  playerMode : Mode
  ground : List Item
  monsters : List Monster
deriving DecidableEq, Repr

/-- `maxInteractions = 30` (pickup_item.go line 20). -/
def maxInteractions : Nat := 30

/-- `pickupTimeout = 8 * time.Second`, in milliseconds (line 23). -/
def pickupTimeout : Nat := 8000

/-- `monsterCheckInterval = time.Second`, in milliseconds (line 39). -/
def monsterCheckInterval : Nat := 1000

/-- The errors `PickupItem` can return: the four declared error values
(lines 26-31) and the `fmt.Errorf("failed to pick up %s after %d attempts")`
failure, which carries the item name and the attempt count. -/
inductive PickupError where
  | itemTooFar (distance : Nat) (name : String)
  | noLOSToItem
  | monsterAroundItem
  | castingMoving
  | pickupFailed (name : String) (attempts : Nat)
deriving DecidableEq, Repr

/-- `findItemOnGround` (lines 178-187): first ground item whose unit id
matches the target id, if any. -/
def findItemOnGround (targetID : Nat) (d : GameData) : Option Item :=
  d.ground.find? (fun i => i.unitID == targetID)

/-- Integer square root by bounded upward search: the largest `r` with
`r * r ≤ n`, found with `n` units of fuel (enough since `r ≤ n`). -/
def isqrtAux (n : Nat) : Nat → Nat → Nat
  | 0, acc => acc
  | f + 1, acc =>
    if (acc + 1) * (acc + 1) ≤ n then isqrtAux n f (acc + 1) else acc

/-- Modelled from the spec: `pather.DistanceFromPoint` is not part of src/;
the spec's Spatial Query Service says only "computes distance between
points", read here as integer Euclidean distance. -/
def distanceFromPoint (a b : Position) : Nat :=
  isqrtAux (((a.x - b.x) * (a.x - b.x) + (a.y - b.y) * (a.y - b.y)).toNat)
    (((a.x - b.x) * (a.x - b.x) + (a.y - b.y) * (a.y - b.y)).toNat) 0

/-- `hasHostileMonstersNearby` (lines 167-176): some enemy with positive
life within distance 4 of `pos`. -/
def hasHostileMonstersNearby (pos : Position) (d : GameData) : Bool :=
  d.monsters.any fun m =>
    decide (0 < m.life) && decide (distanceFromPoint pos m.position ≤ 4)

/-- `verifyPickupConditions` (lines 139-157): the player has not moved, the
item is still on the ground, still hovered, and still at the same position. -/
def verifyPickupConditions (d : GameData) (it : Item) (initialPos : Position) :
    Bool :=
  if !(initialPos.equal d.playerPos) then false
  else
    match findItemOnGround it.unitID d with
    | none => false
    | some cur =>
      if !cur.isHovered then false
      else cur.position.equal it.position

/-- `abs` (lines 160-165): absolute value of an `int`. -/
def abs (x : Int) : Int :=
  if x < 0 then -x else x

/-- Observable side effects of one invocation, in order: world-state
refreshes, the single optional movement action, pointer moves, clicks. -/
inductive PickupEvent where
  | refreshEv
  | moveToEv
  | pointerMoveEv (x y : Int)
  | clickEv
deriving DecidableEq, Repr

/-- World snapshots observed during one click-and-check cycle: `dv` is the
data read by `verifyPickupConditions` before the click, `dc` the data read by
the post-click existence check. -/
structure ClickObs where
  dv : GameData
  dc : GameData

/-- The environment of one loop iteration: the snapshot produced by the
iteration's leading `RefreshGameData`, the wall clock, the cursor position
read back after `MovePointer`, and the snapshots seen by the click burst. -/
structure IterEnv where
  d1 : GameData
  now : Nat
  cursor : Int × Int
  burst : Nat → ClickObs

/-- The target item argument of `PickupItem`: unit id, display name, and
last-known position. -/
structure TargetItem where
  unitID : Nat
  name : String
  pos : Position

/-- Per-invocation parameters: the screen projection
(`GameCoordsToScreenCords`) and spiral offset (`utils.ItemSpiral`) services,
the start timestamp, and the target item. -/
structure PickupParams where
  proj : Int → Int → Int × Int
  spiral : Nat → Int × Int
  startTime : Nat
  it : TargetItem

/-- The mutable loop state of `PickupItem` (lines 35-44). -/
structure LoopState where
  waitingForInteraction : Option Nat
  spiralAttempt : Nat
  lastMonsterCheck : Nat
  initialPlayerPos : Position
  baseX : Int
  baseY : Int
  baseScreen : Int × Int
deriving DecidableEq, Repr

/-- Initial loop state (lines 35-44): counters zeroed, clocks at the start
time, anchor taken from the item's last-known position. -/
def initState (P : PickupParams) (d : GameData) : LoopState :=
  { waitingForInteraction := none
    spiralAttempt := 0
    lastMonsterCheck := P.startTime
    initialPlayerPos := d.playerPos
    baseX := P.it.pos.x
    baseY := P.it.pos.y
    baseScreen := P.proj P.it.pos.x P.it.pos.y }

/-- Step 1 of an iteration (lines 50-56): if the player moved, record the new
position and recompute the screen anchor. -/
def syncPlayer (P : PickupParams) (s : LoopState) (d : GameData) : LoopState :=
  if s.initialPlayerPos.equal d.playerPos then s
  else { s with initialPlayerPos := d.playerPos
                baseScreen := P.proj s.baseX s.baseY }

/-- Step 3 of an iteration (lines 66-72): if the item moved, record the new
base coordinates and recompute the screen anchor. -/
def syncItem (P : PickupParams) (s : LoopState) (cur : Item) : LoopState :=
  if cur.position.x == s.baseX && cur.position.y == s.baseY then s
  else { s with baseX := cur.position.x
                baseY := cur.position.y
                baseScreen := P.proj cur.position.x cur.position.y }

/-- The termination guard of lines 75-77: step counter above the ceiling, or
time since hover was first confirmed above the timeout, or total elapsed time
above the timeout. -/
def timeoutTripped (s : LoopState) (startTime now : Nat) : Bool :=
  decide (s.spiralAttempt > maxInteractions)
  || (match s.waitingForInteraction with
      | some w => decide (now - w > pickupTimeout)
      | none => false)
  || decide (now - startTime > pickupTimeout)

/-- The loop state as it stands at the cursor-movement point of an iteration
that passed the existence, timeout and monster checks: both syncs applied and
`lastMonsterCheck` advanced when the throttled check ran (lines 82-87). -/
def preClickState (P : PickupParams) (s : LoopState) (e : IterEnv)
    (cur : Item) : LoopState :=
  let s2 := syncItem P (syncPlayer P s e.d1) cur
  if e.now - s2.lastMonsterCheck > monsterCheckInterval
  then { s2 with lastMonsterCheck := e.now } else s2

/-- The cursor target of an iteration (lines 90-92): screen anchor plus the
spiral offset at the current step counter. -/
def targetCursor (P : PickupParams) (s : LoopState) : Int × Int :=
  (s.baseScreen.1 + (P.spiral s.spiralAttempt).1,
   s.baseScreen.2 + (P.spiral s.spiralAttempt).2)

/-- The click burst of lines 114-127, unrolled on its remaining-cycle fuel;
`k` indexes the observation oracle.  Returns whether the item was confirmed
gone and the clicks issued.  Each cycle re-validates via
`verifyPickupConditions` and breaks without clicking on violation; after a
click it re-checks existence and succeeds on disappearance. -/
def clickBurstAux (targetID : Nat) (cur : Item) (initialPos : Position)
    (obs : Nat → ClickObs) : Nat → Nat → Bool × List PickupEvent
  | _, 0 => (false, [])
  | k, fuel + 1 =>
    if verifyPickupConditions (obs k).dv cur initialPos then
      if (findItemOnGround targetID (obs k).dc).isNone then
        (true, [.clickEv])
      else
        let r := clickBurstAux targetID cur initialPos obs (k + 1) fuel
        (r.1, .clickEv :: r.2)
    else (false, [])

/-- The click burst with its source bound of 3 cycles (line 114). -/
def clickBurst (targetID : Nat) (cur : Item) (initialPos : Position)
    (obs : Nat → ClickObs) : Bool × List PickupEvent :=
  clickBurstAux targetID cur initialPos obs 0 3

/-- The outcome of one iteration of the `for` loop of `PickupItem`:
return `nil`, return an error, or loop again with an updated state. -/
inductive StepOutcome where
  | success
  | failure (e : PickupError)
  | continueLoop (s : LoopState)
deriving DecidableEq, Repr

/-- One iteration of the `for` loop of `PickupItem` (lines 46-135), together
with the observable events it performs. -/
def pickupStep (P : PickupParams) (s : LoopState) (e : IterEnv) :
    StepOutcome × List PickupEvent :=
  let s1 := syncPlayer P s e.d1
  match findItemOnGround P.it.unitID e.d1 with
  | none => (.success, [.refreshEv])
  | some cur =>
    let s2 := syncItem P s1 cur
    if timeoutTripped s2 P.startTime e.now then
      (.failure (.pickupFailed P.it.name s2.spiralAttempt), [.refreshEv])
    else if decide (e.now - s2.lastMonsterCheck > monsterCheckInterval)
        && hasHostileMonstersNearby cur.position e.d1 then
      (.failure .monsterAroundItem, [.refreshEv])
    else
      let s3 := preClickState P s e cur
      let t := targetCursor P s3
      if abs (e.cursor.1 - t.1) > 5 || abs (e.cursor.2 - t.2) > 5 then
        (.continueLoop s3, [.refreshEv, .pointerMoveEv t.1 t.2])
      else if cur.isHovered then
        let cb := clickBurst P.it.unitID cur s3.initialPlayerPos e.burst
        if cb.1 then
          (.success, [.refreshEv, .pointerMoveEv t.1 t.2, .refreshEv] ++ cb.2)
        else
          let s4 := if s3.waitingForInteraction.isNone
                    then { s3 with waitingForInteraction := some e.now }
                    else s3
          (.continueLoop { s4 with spiralAttempt := s4.spiralAttempt + 1 },
           [.refreshEv, .pointerMoveEv t.1 t.2, .refreshEv] ++ cb.2)
      else
        (.continueLoop { s3 with spiralAttempt := s3.spiralAttempt + 1 },
         [.refreshEv, .pointerMoveEv t.1 t.2, .refreshEv])

/-- The result of running the loop: the Go loop is unbounded, so the
embedding takes fuel and reports `outOfFuel` when it runs out. -/
inductive RunResult where
  | success
  | failure (e : PickupError)
  | outOfFuel
deriving DecidableEq, Repr

/-- The `for` loop of `PickupItem`, iterated over the environment stream
`envs` starting at iteration index `i`, with the events it accumulates. -/
def runPickup (P : PickupParams) (envs : Nat → IterEnv) :
    Nat → LoopState → Nat → RunResult × List PickupEvent
  | 0, _, _ => (.outOfFuel, [])
  | fuel + 1, s, i =>
    match pickupStep P s (envs i) with
    | (.success, evs) => (.success, evs)
    | (.failure e2, evs) => (.failure e2, evs)
    | (.continueLoop s', evs) =>
      let r := runPickup P envs fuel s' (i + 1)
      (r.1, evs ++ r.2)

/-- The busy-mode set of the spec's Precondition Guard:
casting, walking, running, walking-in-town. -/
def isBusyMode (m : Mode) : Bool :=
  match m with
  | .casting | .walking | .running | .walkingInTown => true
  | _ => false

/-- Modelled from the spec: the Precondition Guard of spec section 4.1 is not
part of src/ — only the error values it returns (`ErrCastingMoving`,
`ErrMonsterAroundItem`, `ErrNoLOSToItem`, `ErrItemTooFar`, lines 26-31 of
pickup_item.go) are declared there.  Following the spec's order: busy mode
fails with CharacterBusy; a hostile with positive life within radius 4 of the
item fails with ThreatNearby (via the src helper `hasHostileMonstersNearby`);
missing line of sight fails with NoLineOfSight; distance at least 7 and below
10 issues one movement action and recomputes the distance on the post-move
snapshot `afterMove`, failing with TargetUnreachable (carrying the measured
distance and item name) when still at least 7; distance at least 10 fails the
same way without the movement action.  Returns the error if any, the events
performed, and the world snapshot the loop then starts from. -/
def checkPreconditions (los : Position → Position → Bool) (it : TargetItem)
    (d0 afterMove : GameData) :
    Option PickupError × List PickupEvent × GameData :=
  if isBusyMode d0.playerMode then (some .castingMoving, [], d0)
  else if hasHostileMonstersNearby it.pos d0 then
    (some .monsterAroundItem, [], d0)
  else if !(los d0.playerPos it.pos) then (some .noLOSToItem, [], d0)
  else
    let dist := distanceFromPoint d0.playerPos it.pos
    if dist ≥ 7 then
      if dist < 10 then
        let dist2 := distanceFromPoint afterMove.playerPos it.pos
        if dist2 ≥ 7 then
          (some (.itemTooFar dist2 it.name), [.moveToEv], afterMove)
        else (none, [.moveToEv], afterMove)
      else (some (.itemTooFar dist it.name), [], d0)
    else (none, [], d0)

/-- The full pickup operation: the spec-modelled Precondition Guard followed
by the src retry loop, with the combined event trace. -/
def PickupItem (los : Position → Position → Bool) (P : PickupParams)
    (d0 afterMove : GameData) (envs : Nat → IterEnv) (fuel : Nat) :
    RunResult × List PickupEvent :=
  match checkPreconditions los P.it d0 afterMove with
  | (some e2, evs, _) => (.failure e2, evs)
  | (none, evs, d) =>
    let r := runPickup P envs fuel (initState P d) 0
    (r.1, evs ++ r.2)

/-- An iteration environment in which some ground-item lookup reported the
target item missing: either the iteration's leading snapshot, or one of the
post-click existence checks of the click burst. -/
def missingReported (id : Nat) (e : IterEnv) : Bool :=
  (findItemOnGround id e.d1).isNone
  || (List.range 3).any fun k => (findItemOnGround id (e.burst k).dc).isNone

/- Concrete test fixtures used by the witness theorems. -/

/-- A ground item sitting at the origin, not hovered. -/
def itmW : Item := ⟨1, ⟨0, 0⟩, false, "ring"⟩

/-- A world snapshot with the item on the ground and nothing else. -/
def dW : GameData := ⟨⟨0, 0⟩, .idle, [itmW], []⟩

/-- A world snapshot with empty ground (the item is gone). -/
def dGone : GameData := ⟨⟨0, 0⟩, .idle, [], []⟩

/-- Parameters with degenerate projection and spiral services. -/
def PW : PickupParams :=
  { proj := fun _ _ => (0, 0)
    spiral := fun _ => (0, 0)
    startTime := 0
    it := ⟨1, "ring", ⟨0, 0⟩⟩ }

/-- An iteration environment whose every snapshot still holds the item, whose
clock is frozen at 0, and whose cursor lands exactly on target. -/
def eW : IterEnv := ⟨dW, 0, (0, 0), fun _ => ⟨dW, dW⟩⟩

/-- An iteration environment whose leading snapshot lacks the item. -/
def eGone : IterEnv := ⟨dGone, 0, (0, 0), fun _ => ⟨dGone, dGone⟩⟩

/-- A world snapshot with the player casting. -/
def dBusy : GameData := ⟨⟨0, 0⟩, .casting, [itmW], []⟩

/-- A world snapshot with a live monster on top of the item. -/
def dThreat : GameData := ⟨⟨0, 0⟩, .idle, [itmW], [⟨⟨1, 0⟩, 50⟩]⟩

/-- A world snapshot with the player 12 units from the origin item. -/
def dFar : GameData := ⟨⟨12, 0⟩, .idle, [itmW], []⟩

/-- An iteration environment whose cursor read-back misses the target by far
more than the 5-pixel tolerance. -/
def eMiss : IterEnv := ⟨dW, 0, (100, 0), fun _ => ⟨dW, dW⟩⟩

/-- The ground item at the origin, reported hovered. -/
def itmH : Item := ⟨1, ⟨0, 0⟩, true, "ring"⟩

/-- A world snapshot whose ground item is hovered. -/
def dHov : GameData := ⟨⟨0, 0⟩, .idle, [itmH], []⟩

/-- An iteration environment that confirms hover on its leading snapshot but
whose click-burst snapshots show the item no longer hovered, so the burst's
pre-click validation fails at cycle 0. -/
def eHov : IterEnv := ⟨dHov, 0, (0, 0), fun _ => ⟨dW, dW⟩⟩

/-- A line-of-sight oracle that always grants sight. -/
def losW : Position → Position → Bool := fun _ _ => true

/-- A line-of-sight oracle that always denies sight. -/
def losF : Position → Position → Bool := fun _ _ => false

/-- The loop state reached after `n` completed spiral iterations of a run
that starts from `initState P d` and never re-synchronises: only the step
counter has advanced. -/
def stateAfter (P : PickupParams) (d : GameData) (n : Nat) : LoopState :=
  { initState P d with spiralAttempt := n }

/- Helper lemmas: the state-synchronisation stages only touch the position
and anchor fields. -/

theorem syncPlayer_spiralAttempt (P : PickupParams) (s : LoopState)
    (d : GameData) : (syncPlayer P s d).spiralAttempt = s.spiralAttempt := by
  unfold syncPlayer; split <;> rfl

theorem syncItem_spiralAttempt (P : PickupParams) (s : LoopState)
    (cur : Item) : (syncItem P s cur).spiralAttempt = s.spiralAttempt := by
  unfold syncItem; split <;> rfl

theorem syncPlayer_waiting (P : PickupParams) (s : LoopState)
    (d : GameData) :
    (syncPlayer P s d).waitingForInteraction = s.waitingForInteraction := by
  unfold syncPlayer; split <;> rfl

theorem syncItem_waiting (P : PickupParams) (s : LoopState) (cur : Item) :
    (syncItem P s cur).waitingForInteraction = s.waitingForInteraction := by
  unfold syncItem; split <;> rfl

theorem syncPlayer_lastMonsterCheck (P : PickupParams) (s : LoopState)
    (d : GameData) :
    (syncPlayer P s d).lastMonsterCheck = s.lastMonsterCheck := by
  unfold syncPlayer; split <;> rfl

theorem syncItem_lastMonsterCheck (P : PickupParams) (s : LoopState)
    (cur : Item) :
    (syncItem P s cur).lastMonsterCheck = s.lastMonsterCheck := by
  unfold syncItem; split <;> rfl

theorem timeoutTripped_congr {s s' : LoopState} (t n : Nat)
    (h1 : s'.spiralAttempt = s.spiralAttempt)
    (h2 : s'.waitingForInteraction = s.waitingForInteraction) :
    timeoutTripped s' t n = timeoutTripped s t n := by
  unfold timeoutTripped; rw [h1, h2]

theorem timeoutTripped_sync (P : PickupParams) (s : LoopState)
    (d : GameData) (cur : Item) (t n : Nat) :
    timeoutTripped (syncItem P (syncPlayer P s d) cur) t n
      = timeoutTripped s t n := by
  apply timeoutTripped_congr
  · rw [syncItem_spiralAttempt, syncPlayer_spiralAttempt]
  · rw [syncItem_waiting, syncPlayer_waiting]

theorem sync_lastMonsterCheck (P : PickupParams) (s : LoopState)
    (d : GameData) (cur : Item) :
    (syncItem P (syncPlayer P s d) cur).lastMonsterCheck
      = s.lastMonsterCheck := by
  rw [syncItem_lastMonsterCheck, syncPlayer_lastMonsterCheck]

theorem preClickState_spiralAttempt (P : PickupParams) (s : LoopState)
    (e : IterEnv) (cur : Item) :
    (preClickState P s e cur).spiralAttempt = s.spiralAttempt := by
  unfold preClickState
  dsimp only
  split
  · simp only [syncItem_spiralAttempt, syncPlayer_spiralAttempt]
  · rw [syncItem_spiralAttempt, syncPlayer_spiralAttempt]

theorem preClickState_waiting (P : PickupParams) (s : LoopState)
    (e : IterEnv) (cur : Item) :
    (preClickState P s e cur).waitingForInteraction
      = s.waitingForInteraction := by
  unfold preClickState
  dsimp only
  split
  · simp only [syncItem_waiting, syncPlayer_waiting]
  · rw [syncItem_waiting, syncPlayer_waiting]

/- Helper lemmas about the click burst. -/

theorem clickBurstAux_length (id : Nat) (cur : Item) (pos : Position)
    (obs : Nat → ClickObs) :
    ∀ fuel k, (clickBurstAux id cur pos obs k fuel).2.length ≤ fuel := by
  intro fuel
  induction fuel with
  | zero => intro k; simp [clickBurstAux]
  | succ n ih =>
    intro k
    unfold clickBurstAux
    split
    · split
      · simp
      · simpa using Nat.succ_le_succ (ih (k + 1))
    · simp

theorem clickBurstAux_all_click (id : Nat) (cur : Item) (pos : Position)
    (obs : Nat → ClickObs) :
    ∀ fuel k, ∀ ev ∈ (clickBurstAux id cur pos obs k fuel).2,
      ev = .clickEv := by
  intro fuel
  induction fuel with
  | zero => intro k ev h; simp [clickBurstAux] at h
  | succ n ih =>
    intro k ev h
    unfold clickBurstAux at h
    split at h
    · split at h
      · simpa using h
      · rcases (List.mem_cons).1 h with h' | h'
        · exact h'
        · exact ih (k + 1) ev h'
    · simp at h

theorem clickBurstAux_verified (id : Nat) (cur : Item) (pos : Position)
    (obs : Nat → ClickObs) :
    ∀ fuel k j, j < (clickBurstAux id cur pos obs k fuel).2.length →
      verifyPickupConditions (obs (k + j)).dv cur pos = true := by
  intro fuel
  induction fuel with
  | zero => intro k j h; simp [clickBurstAux] at h
  | succ n ih =>
    intro k j h
    unfold clickBurstAux at h
    split at h
    · rename_i hv
      split at h
      · simp at h
        subst h
        simpa using hv
      · simp at h
        match j with
        | 0 => simpa using hv
        | j' + 1 =>
          have := ih (k + 1) j' (by omega)
          simpa [Nat.add_assoc, Nat.add_comm 1 j'] using this
    · simp at h

theorem clickBurstAux_abort (id : Nat) (cur : Item) (pos : Position)
    (obs : Nat → ClickObs) :
    ∀ fuel k j, verifyPickupConditions (obs (k + j)).dv cur pos = false →
      (∀ i, i < j → verifyPickupConditions (obs (k + i)).dv cur pos = true) →
      (clickBurstAux id cur pos obs k fuel).2.length ≤ j := by
  intro fuel
  induction fuel with
  | zero => intro k j _ _; simp [clickBurstAux]
  | succ n ih =>
    intro k j hj hpre
    unfold clickBurstAux
    split
    · rename_i hv
      match j with
      | 0 => rw [Nat.add_zero] at hj; rw [hv] at hj; cases hj
      | j' + 1 =>
        split
        · simp
        · simp only [List.length_cons]
          have hrec := ih (k + 1) j'
            (by simpa [Nat.add_assoc, Nat.add_comm 1 j'] using hj)
            (fun i hi => by
              have := hpre (i + 1) (by omega)
              simpa [Nat.add_assoc, Nat.add_comm 1 i] using this)
          omega
    · simp

theorem clickBurstAux_true (id : Nat) (cur : Item) (pos : Position)
    (obs : Nat → ClickObs) :
    ∀ fuel k, (clickBurstAux id cur pos obs k fuel).1 = true →
      ∃ j, k ≤ j ∧ j < k + fuel ∧ findItemOnGround id (obs j).dc = none := by
  intro fuel
  induction fuel with
  | zero => intro k h; simp [clickBurstAux] at h
  | succ n ih =>
    intro k h
    unfold clickBurstAux at h
    split at h
    · split at h
      · rename_i hnone
        exact ⟨k, Nat.le_refl k, by omega,
          Option.isNone_iff_eq_none.1 (by simpa using hnone)⟩
      · simp only at h
        obtain ⟨j, hj1, hj2, hj3⟩ := ih (k + 1) h
        exact ⟨j, by omega, by omega, hj3⟩
    · simp at h

/- Step-level helper lemmas. -/

theorem pickupStep_success_missing (P : PickupParams) (s : LoopState)
    (e : IterEnv) (evs : List PickupEvent)
    (h : pickupStep P s e = (.success, evs)) :
    missingReported P.it.unitID e = true := by
  cases hf : findItemOnGround P.it.unitID e.d1 with
  | none => simp [missingReported, hf]
  | some cur =>
    simp only [pickupStep, hf] at h
    split at h
    · cases h
    · split at h
      · cases h
      · split at h
        · cases h
        · split at h
          · split at h
            · rename_i hcb
              obtain ⟨j, hj0, hj3, hjn⟩ :=
                clickBurstAux_true P.it.unitID cur
                  (preClickState P s e cur).initialPlayerPos e.burst 3 0 hcb
              simp only [missingReported, Bool.or_eq_true, List.any_eq_true]
              exact Or.inr ⟨j, List.mem_range.2 (by omega),
                by simp [hjn]⟩
            · cases h
          · cases h

theorem pickupStep_failed_inv (P : PickupParams) (s : LoopState)
    (e : IterEnv) (name : String) (a : Nat)
    (h : (pickupStep P s e).1 = .failure (.pickupFailed name a)) :
    (findItemOnGround P.it.unitID e.d1).isSome = true
    ∧ timeoutTripped s P.startTime e.now = true
    ∧ name = P.it.name ∧ a = s.spiralAttempt := by
  cases hf : findItemOnGround P.it.unitID e.d1 with
  | none => simp [pickupStep, hf] at h
  | some cur =>
    simp only [pickupStep, hf] at h
    split at h
    · rename_i ht
      rw [timeoutTripped_sync] at ht
      simp only [StepOutcome.failure.injEq, PickupError.pickupFailed.injEq] at h
      refine ⟨rfl, ht, h.1.symm, ?_⟩
      rw [h.2.symm, syncItem_spiralAttempt, syncPlayer_spiralAttempt]
    · split at h
      · simp at h
      · split at h
        · cases h
        · split at h
          · split at h
            · cases h
            · cases h
          · cases h

theorem pickupStep_failed_of_tripped (P : PickupParams) (s : LoopState)
    (e : IterEnv) (cur : Item)
    (hf : findItemOnGround P.it.unitID e.d1 = some cur)
    (ht : timeoutTripped s P.startTime e.now = true) :
    pickupStep P s e
      = (.failure (.pickupFailed P.it.name s.spiralAttempt), [.refreshEv]) := by
  simp only [pickupStep, hf]
  rw [if_pos (by rw [timeoutTripped_sync]; exact ht)]
  rw [syncItem_spiralAttempt, syncPlayer_spiralAttempt]

theorem pickupStep_continue_mono (P : PickupParams) (s : LoopState)
    (e : IterEnv) (s' : LoopState) (evs : List PickupEvent)
    (h : pickupStep P s e = (.continueLoop s', evs)) :
    s.spiralAttempt ≤ s'.spiralAttempt := by
  cases hf : findItemOnGround P.it.unitID e.d1 with
  | none => simp [pickupStep, hf] at h
  | some cur =>
    simp only [pickupStep, hf] at h
    split at h
    · cases h
    · split at h
      · cases h
      · split at h
        · simp only [Prod.mk.injEq, StepOutcome.continueLoop.injEq] at h
          rw [← h.1, preClickState_spiralAttempt]
        · split at h
          · split at h
            · cases h
            · simp only [Prod.mk.injEq, StepOutcome.continueLoop.injEq] at h
              rw [← h.1]
              split
              · simp [preClickState_spiralAttempt]
              · simp [preClickState_spiralAttempt]
          · simp only [Prod.mk.injEq, StepOutcome.continueLoop.injEq] at h
            rw [← h.1]
            simp [preClickState_spiralAttempt]

theorem burst_no_moveTo (id : Nat) (cur : Item) (pos : Position)
    (obs : Nat → ClickObs) (fuel k : Nat) :
    PickupEvent.moveToEv ∉ (clickBurstAux id cur pos obs k fuel).2 := by
  intro h
  have := clickBurstAux_all_click id cur pos obs fuel k _ h
  cases this

theorem pickupStep_no_moveTo (P : PickupParams) (s : LoopState)
    (e : IterEnv) : PickupEvent.moveToEv ∉ (pickupStep P s e).2 := by
  cases hf : findItemOnGround P.it.unitID e.d1 with
  | none => simp [pickupStep, hf]
  | some cur =>
    simp only [pickupStep, hf]
    split
    · simp
    · split
      · simp
      · split
        · simp
        · split
          · split
            · intro hmem
              exact burst_no_moveTo _ _ _ _ 3 0
                (by simpa [clickBurst] using hmem)
            · intro hmem
              exact burst_no_moveTo _ _ _ _ 3 0
                (by simpa [clickBurst] using hmem)
          · simp

/- Run-level helper lemmas. -/

theorem runPickup_success_missing (P : PickupParams) (envs : Nat → IterEnv) :
    ∀ fuel s i evs, runPickup P envs fuel s i = (.success, evs) →
      ∃ j, i ≤ j ∧ j < i + fuel ∧
        missingReported P.it.unitID (envs j) = true := by
  intro fuel
  induction fuel with
  | zero => intro s i evs h; simp [runPickup] at h
  | succ n ih =>
    intro s i evs h
    unfold runPickup at h
    split at h
    · rename_i hstep
      exact ⟨i, Nat.le_refl i, by omega,
        pickupStep_success_missing P s (envs i) _ hstep⟩
    · cases h
    · rename_i s' evs' hstep
      simp only [Prod.mk.injEq] at h
      obtain ⟨j, hj1, hj2, hj3⟩ := ih s' (i + 1) _
        (Prod.ext h.1 rfl)
      exact ⟨j, by omega, by omega, hj3⟩

theorem runPickup_no_moveTo (P : PickupParams) (envs : Nat → IterEnv) :
    ∀ fuel s i, PickupEvent.moveToEv ∉ (runPickup P envs fuel s i).2 := by
  intro fuel
  induction fuel with
  | zero => intro s i; simp [runPickup]
  | succ n ih =>
    intro s i
    unfold runPickup
    split
    · rename_i evs hstep
      exact fun h =>
        pickupStep_no_moveTo P s (envs i) (by rw [hstep]; simpa using h)
    · rename_i e2 evs hstep
      exact fun h =>
        pickupStep_no_moveTo P s (envs i) (by rw [hstep]; simpa using h)
    · rename_i s' evs' hstep
      intro h
      rcases List.mem_append.1 (by simpa using h) with h' | h'
      · exact pickupStep_no_moveTo P s (envs i)
          (by rw [hstep]; simpa using h')
      · exact ih s' (i + 1) h'

/- Helper lemmas for runs in which no re-synchronisation happens. -/

theorem Position.equal_refl (a : Position) : Position.equal a a = true := by
  simp [Position.equal]

theorem syncPlayer_noop (P : PickupParams) (s : LoopState) (d : GameData)
    (h : s.initialPlayerPos.equal d.playerPos = true) :
    syncPlayer P s d = s := by
  unfold syncPlayer; rw [if_pos h]

theorem syncItem_noop (P : PickupParams) (s : LoopState) (cur : Item)
    (h1 : cur.position.x = s.baseX) (h2 : cur.position.y = s.baseY) :
    syncItem P s cur = s := by
  unfold syncItem; rw [if_pos (by simp [h1, h2])]

theorem preClickState_noop (P : PickupParams) (s : LoopState) (e : IterEnv)
    (cur : Item)
    (hs : syncItem P (syncPlayer P s e.d1) cur = s)
    (hm : ¬ (e.now - s.lastMonsterCheck > monsterCheckInterval)) :
    preClickState P s e cur = s := by
  unfold preClickState
  dsimp only
  rw [hs, if_neg hm]

theorem hasHostileMonstersNearby_iff (pos : Position) (d : GameData) :
    hasHostileMonstersNearby pos d = true ↔
      ∃ m ∈ d.monsters, 0 < m.life ∧ distanceFromPoint pos m.position ≤ 4 := by
  simp [hasHostileMonstersNearby, List.any_eq_true]

theorem pickupStep_click_count (P : PickupParams) (s : LoopState)
    (e : IterEnv) : (pickupStep P s e).2.count PickupEvent.clickEv ≤ 3 := by
  cases hf : findItemOnGround P.it.unitID e.d1 with
  | none => simp [pickupStep, hf]
  | some cur =>
    simp only [pickupStep, hf]
    split
    · simp
    · split
      · simp
      · split
        · simp
        · split
          · have hlen := clickBurstAux_length P.it.unitID cur
              (preClickState P s e cur).initialPlayerPos e.burst 3 0
            have hcount := List.count_le_length
              (l := (clickBurstAux P.it.unitID cur
                (preClickState P s e cur).initialPlayerPos e.burst 0 3).2)
              (a := PickupEvent.clickEv)
            split
            · simpa [clickBurst, List.count_append] using le_trans hcount hlen
            · simpa [clickBurst, List.count_append] using le_trans hcount hlen
          · simp

/-- One never-hovered iteration: with the item present, unmoved and not
hovered, the clock frozen at the start time, and the cursor landing exactly
on target, the step just advances the spiral counter. -/
theorem stepNeverHovered (P : PickupParams) (d : GameData) (itm : Item)
    (e : IterEnv)
    (hd1 : e.d1 = d)
    (hfind : findItemOnGround P.it.unitID d = some itm)
    (hx : itm.position.x = P.it.pos.x) (hy : itm.position.y = P.it.pos.y)
    (hhov : itm.isHovered = false)
    (hnow : e.now = P.startTime)
    (n : Nat) (hn : n ≤ 30)
    (hcur : e.cursor = targetCursor P (stateAfter P d n)) :
    pickupStep P (stateAfter P d n) e
      = (.continueLoop (stateAfter P d (n + 1)),
         [.refreshEv,
          .pointerMoveEv (targetCursor P (stateAfter P d n)).1
            (targetCursor P (stateAfter P d n)).2, .refreshEv]) := by
  have hsp : syncPlayer P (stateAfter P d n) d = stateAfter P d n := by
    apply syncPlayer_noop
    exact Position.equal_refl d.playerPos
  have hsi : syncItem P (stateAfter P d n) itm = stateAfter P d n := by
    apply syncItem_noop
    · simpa [stateAfter, initState] using hx
    · simpa [stateAfter, initState] using hy
  have hmon : ¬ (e.now - (stateAfter P d n).lastMonsterCheck
      > monsterCheckInterval) := by
    simp [stateAfter, initState, hnow, monsterCheckInterval]
  have hpre : preClickState P (stateAfter P d n) e itm = stateAfter P d n :=
    preClickState_noop P (stateAfter P d n) e itm
      (by rw [hd1, hsp]; exact hsi) hmon
  have htime : timeoutTripped (stateAfter P d n) P.startTime e.now
      = false := by
    simp [timeoutTripped, stateAfter, initState, hnow, maxInteractions,
      pickupTimeout]
    omega
  simp only [pickupStep, hd1, hfind, hsp, hsi, hpre]
  rw [if_neg (by simp [htime])]
  rw [if_neg (by
    simp only [Bool.and_eq_true, not_and, decide_eq_true_eq]
    intro hgt
    exact absurd hgt hmon)]
  rw [if_neg (by
    rw [hcur]
    simp [abs])]
  rw [if_neg (by simp [hhov])]
  rfl

/-- Never-hovered run: from spiral counter `n` with `m + n = 31`, the loop
ends in the attempts-exhausted failure carrying count 31. -/
theorem runNeverHovered (P : PickupParams) (d : GameData) (itm : Item)
    (envs : Nat → IterEnv)
    (hd1 : ∀ i, (envs i).d1 = d)
    (hfind : findItemOnGround P.it.unitID d = some itm)
    (hx : itm.position.x = P.it.pos.x) (hy : itm.position.y = P.it.pos.y)
    (hhov : itm.isHovered = false)
    (hnow : ∀ i, (envs i).now = P.startTime)
    (hcur : ∀ i, (envs i).cursor = targetCursor P (stateAfter P d i)) :
    ∀ m n, m + n = 31 →
      (runPickup P envs (m + 1) (stateAfter P d n) n).1
        = .failure (.pickupFailed P.it.name 31) := by
  intro m
  induction m with
  | zero =>
    intro n hn
    have hn31 : n = 31 := by omega
    subst hn31
    have ht : timeoutTripped (stateAfter P d 31) P.startTime
        ((envs 31).now) = true := by
      simp [timeoutTripped, stateAfter, initState, maxInteractions]
    have hstep := pickupStep_failed_of_tripped P (stateAfter P d 31)
      (envs 31) itm (by rw [hd1]; exact hfind) ht
    unfold runPickup
    rw [hstep]
    rfl
  | succ k ih =>
    intro n hn
    have hnle : n ≤ 30 := by omega
    have hstep := stepNeverHovered P d itm (envs n) (hd1 n) hfind hx hy
      hhov (hnow n) n hnle (hcur n)
    unfold runPickup
    rw [hstep]
    exact ih (n + 1) (by omega)

/- Claim theorems. -/

/-- C1: `PickupItem` returns success (nil error) only when the item with the
target identity is absent from the ground-item collection: whenever the loop
returns success, some ground-item lookup during the run — the iteration's
leading snapshot or a post-click re-check — reported the item as not found.
Success is never returned merely because a click was issued. -/
theorem C1_success_only_when_missing (P : PickupParams)
    (envs : Nat → IterEnv) (fuel : Nat) (s : LoopState) (i : Nat)
    (evs : List PickupEvent)
    (h : runPickup P envs fuel s i = (.success, evs)) :
    ∃ j, i ≤ j ∧ j < i + fuel ∧
      missingReported P.it.unitID (envs j) = true :=
  runPickup_success_missing P envs fuel s i evs h

/-- Witness for C1: a run over a world whose ground collection lacks the
item returns success, and the theorem locates the reporting lookup. -/
theorem C1_success_only_when_missing_witness :
    ∃ j, 0 ≤ j ∧ j < 0 + 1 ∧
      missingReported 1 ((fun _ => eGone) j) = true :=
  C1_success_only_when_missing PW (fun _ => eGone) 1 (initState PW dGone) 0
    [.refreshEv] (by decide)

/-- C2: an iteration of `PickupItem` returns the attempts-exhausted failure
(carrying the item name and the number of attempts made) exactly when the
item is still on the ground and one of the three bounds has tripped: the
spiral step counter exceeds the interaction ceiling, or the time since hover
was first confirmed exceeds the pickup timeout, or the total elapsed time
since the attempt began exceeds the pickup timeout (`timeoutTripped`); no
such failure is returned while all three bounds hold. -/
theorem C2_failure_exactly_on_tripped_bound (P : PickupParams)
    (s : LoopState) (e : IterEnv) (name : String) (a : Nat) :
    (pickupStep P s e).1 = .failure (.pickupFailed name a) ↔
      ((findItemOnGround P.it.unitID e.d1).isSome = true
       ∧ timeoutTripped s P.startTime e.now = true
       ∧ name = P.it.name ∧ a = s.spiralAttempt) := by
  constructor
  · exact pickupStep_failed_inv P s e name a
  · rintro ⟨hsome, ht, rfl, rfl⟩
    obtain ⟨cur, hcur⟩ := Option.isSome_iff_exists.1 hsome
    rw [pickupStep_failed_of_tripped P s e cur hcur ht]

/-- Witness for C2: with the counter already past the ceiling and the item
still on the ground, the step returns the failure carrying name and count. -/
theorem C2_failure_exactly_on_tripped_bound_witness :
    (pickupStep PW (stateAfter PW dW 31) eW).1
      = .failure (.pickupFailed ("ring") 31) :=
  (C2_failure_exactly_on_tripped_bound PW (stateAfter PW dW 31) eW
    ("ring") 31).mpr ⟨by decide, by decide, rfl, rfl⟩

/-- C3: when the player's mode at call time is casting, walking, running or
walking-in-town, `PickupItem` fails immediately with CharacterBusy
(`ErrCastingMoving`), with an empty event trace: no world-state refresh
beyond the mode check, no movement action, no pointer movement, no click,
and no loop iteration. -/
theorem C3_character_busy (los : Position → Position → Bool)
    (P : PickupParams) (d0 afterMove : GameData) (envs : Nat → IterEnv)
    (fuel : Nat) (hmode : isBusyMode d0.playerMode = true) :
    PickupItem los P d0 afterMove envs fuel
      = (.failure .castingMoving, []) := by
  simp [PickupItem, checkPreconditions, hmode]

/-- Witness for C3: a casting player makes the call fail with
CharacterBusy and no side effects. -/
theorem C3_character_busy_witness :
    PickupItem losW PW dBusy dW (fun _ => eW) 1
      = (.failure .castingMoving, []) :=
  C3_character_busy losW PW dBusy dW (fun _ => eW) 1 rfl

/-- C4: when the player is not busy and some hostile entity with positive
remaining life lies within the fixed safety radius of 4 distance units of
the item's position at call time, `PickupItem` returns ThreatNearby
(`ErrMonsterAroundItem`) with an empty event trace — in particular without
moving the pointer. -/
theorem C4_threat_nearby (los : Position → Position → Bool)
    (P : PickupParams) (d0 afterMove : GameData) (envs : Nat → IterEnv)
    (fuel : Nat) (hmode : isBusyMode d0.playerMode = false)
    (hthreat : ∃ m ∈ d0.monsters,
      0 < m.life ∧ distanceFromPoint P.it.pos m.position ≤ 4) :
    PickupItem los P d0 afterMove envs fuel
      = (.failure .monsterAroundItem, [])
    ∧ ∀ x y, PickupEvent.pointerMoveEv x y
        ∉ (PickupItem los P d0 afterMove envs fuel).2 := by
  have hh : hasHostileMonstersNearby P.it.pos d0 = true :=
    (hasHostileMonstersNearby_iff P.it.pos d0).2 hthreat
  have hres : PickupItem los P d0 afterMove envs fuel
      = (.failure .monsterAroundItem, []) := by
    simp [PickupItem, checkPreconditions, hmode, hh]
  exact ⟨hres, fun x y => by rw [hres]; simp⟩

/-- Witness for C4: a live monster one unit from the item makes the call
fail with ThreatNearby and no pointer movement. -/
theorem C4_threat_nearby_witness :
    PickupItem losW PW dThreat dW (fun _ => eW) 1
      = (.failure .monsterAroundItem, []) :=
  (C4_threat_nearby losW PW dThreat dW (fun _ => eW) 1 rfl
    ⟨⟨⟨1, 0⟩, 50⟩, by decide, by decide, by decide⟩).1

/-- C5: with mode, threat and line-of-sight checks passing, a call with
player-to-item distance at least 10 returns TargetUnreachable
(`ErrItemTooFar`, carrying the measured distance and item name) with no
movement action attempted; a call with distance at least 7 but below 10
issues exactly one movement action, recomputes the distance on the post-move
snapshot, then fails with the recomputed distance if still at least 7 and
otherwise proceeds into the retry loop from the post-move snapshot. -/
theorem C5_target_unreachable (los : Position → Position → Bool)
    (P : PickupParams) (d0 afterMove : GameData) (envs : Nat → IterEnv)
    (fuel : Nat) (hmode : isBusyMode d0.playerMode = false)
    (hthreat : hasHostileMonstersNearby P.it.pos d0 = false)
    (hlos : los d0.playerPos P.it.pos = true) :
    (10 ≤ distanceFromPoint d0.playerPos P.it.pos →
      PickupItem los P d0 afterMove envs fuel
        = (.failure (.itemTooFar (distanceFromPoint d0.playerPos P.it.pos)
            P.it.name), []))
    ∧ (7 ≤ distanceFromPoint d0.playerPos P.it.pos →
       distanceFromPoint d0.playerPos P.it.pos < 10 →
        ((PickupItem los P d0 afterMove envs fuel).2.count
            PickupEvent.moveToEv = 1
         ∧ (7 ≤ distanceFromPoint afterMove.playerPos P.it.pos →
            PickupItem los P d0 afterMove envs fuel
              = (.failure (.itemTooFar
                  (distanceFromPoint afterMove.playerPos P.it.pos)
                  P.it.name), [.moveToEv]))
         ∧ (distanceFromPoint afterMove.playerPos P.it.pos < 7 →
            (PickupItem los P d0 afterMove envs fuel).1
              = (runPickup P envs fuel (initState P afterMove) 0).1))) := by
  constructor
  · intro h10
    have h7 : 7 ≤ distanceFromPoint d0.playerPos P.it.pos := by omega
    have hn10 : ¬ (distanceFromPoint d0.playerPos P.it.pos < 10) := by omega
    simp [PickupItem, checkPreconditions, hmode, hthreat, hlos, h7, hn10]
  · intro h7 h10
    by_cases h2 : 7 ≤ distanceFromPoint afterMove.playerPos P.it.pos
    · have hres : PickupItem los P d0 afterMove envs fuel
          = (.failure (.itemTooFar
              (distanceFromPoint afterMove.playerPos P.it.pos)
              P.it.name), [.moveToEv]) := by
        simp [PickupItem, checkPreconditions, hmode, hthreat, hlos, h7,
          h10, h2]
      refine ⟨by rw [hres]; rfl, fun _ => hres, fun hlt => absurd h2 (by omega)⟩
    · have hlt : distanceFromPoint afterMove.playerPos P.it.pos < 7 := by
        omega
      have hres : PickupItem los P d0 afterMove envs fuel
          = ((runPickup P envs fuel (initState P afterMove) 0).1,
             .moveToEv :: (runPickup P envs fuel (initState P afterMove) 0).2)
          := by
        simp [PickupItem, checkPreconditions, hmode, hthreat, hlos, h7,
          h10, h2]
      refine ⟨?_, fun hge => absurd hge h2, fun _ => by rw [hres]⟩
      rw [hres]
      simp only [List.count_cons]
      rw [List.count_eq_zero.2 (runPickup_no_moveTo P envs fuel
        (initState P afterMove) 0)]
      simp

/-- Witness for C5: distance 12 from the item fails with TargetUnreachable
carrying distance 12, with no movement action. -/
theorem C5_target_unreachable_witness :
    PickupItem losW PW dFar dW (fun _ => eW) 1
      = (.failure (.itemTooFar 12 ("ring")), []) :=
  (C5_target_unreachable losW PW dFar dW (fun _ => eW) 1 rfl (by decide)
    rfl).1 (by decide)

/-- C6: with the player not busy and no threat near the item, a call with no
line of sight from the player's position to the item's position fails with
NoLineOfSight (`ErrNoLOSToItem`) with an empty event trace — before any
iteration of the retry loop. -/
theorem C6_no_line_of_sight (los : Position → Position → Bool)
    (P : PickupParams) (d0 afterMove : GameData) (envs : Nat → IterEnv)
    (fuel : Nat) (hmode : isBusyMode d0.playerMode = false)
    (hthreat : hasHostileMonstersNearby P.it.pos d0 = false)
    (hlos : los d0.playerPos P.it.pos = false) :
    PickupItem los P d0 afterMove envs fuel
      = (.failure .noLOSToItem, []) := by
  simp [PickupItem, checkPreconditions, hmode, hthreat, hlos]

/-- Witness for C6: a denying line-of-sight oracle makes the call fail with
NoLineOfSight and no side effects. -/
theorem C6_no_line_of_sight_witness :
    PickupItem losF PW dW dW (fun _ => eW) 1
      = (.failure .noLOSToItem, []) :=
  C6_no_line_of_sight losF PW dW dW (fun _ => eW) 1 rfl (by decide) rfl

/-- C7: in every iteration, `PickupItem` issues at most 3 clicks; the click
burst runs at most 3 click-and-check cycles; the `k`-th click is issued only
after `verifyPickupConditions` re-validated on the pre-click snapshot that
the player has not moved, the item still exists, is still hovered and has
not changed position; a validation failure at cycle `j` (all earlier cycles
having validated) aborts the burst with no click at cycle `j` or later; and
after a hover-confirmed iteration whose burst does not confirm the item's
disappearance — in particular after an aborted burst — the step yields
`continueLoop`, so the loop continues seeking rather than returning. -/
theorem C7_click_burst_validation (P : PickupParams) (s : LoopState)
    (e : IterEnv) (id : Nat) (cur : Item) (pos : Position)
    (obs : Nat → ClickObs) :
    (pickupStep P s e).2.count PickupEvent.clickEv ≤ 3
    ∧ (clickBurst id cur pos obs).2.length ≤ 3
    ∧ (∀ j, j < (clickBurst id cur pos obs).2.length →
        verifyPickupConditions (obs j).dv cur pos = true)
    ∧ (∀ j, verifyPickupConditions (obs j).dv cur pos = false →
        (∀ i, i < j → verifyPickupConditions (obs i).dv cur pos = true) →
        (clickBurst id cur pos obs).2.length ≤ j)
    ∧ (∀ cur', findItemOnGround P.it.unitID e.d1 = some cur' →
        timeoutTripped s P.startTime e.now = false →
        (decide (e.now - s.lastMonsterCheck > monsterCheckInterval)
           && hasHostileMonstersNearby cur'.position e.d1) = false →
        abs (e.cursor.1 - (targetCursor P (preClickState P s e cur')).1) ≤ 5 →
        abs (e.cursor.2 - (targetCursor P (preClickState P s e cur')).2) ≤ 5 →
        cur'.isHovered = true →
        (clickBurst P.it.unitID cur'
          (preClickState P s e cur').initialPlayerPos e.burst).1 = false →
        ∃ s', (pickupStep P s e).1 = .continueLoop s'
          ∧ s'.spiralAttempt = s.spiralAttempt + 1) := by
  refine ⟨pickupStep_click_count P s e,
    clickBurstAux_length id cur pos obs 3 0, ?_, ?_, ?_⟩
  · intro j hj
    have := clickBurstAux_verified id cur pos obs 3 0 j hj
    simpa using this
  · intro j hj hpre
    exact clickBurstAux_abort id cur pos obs 3 0 j (by simpa using hj)
      (fun i hi => by simpa using hpre i hi)
  · intro cur' hf ht hm hcx hcy hhov hcb
    have hstep : (pickupStep P s e).1
        = .continueLoop
          { (if (preClickState P s e cur').waitingForInteraction.isNone
             then { preClickState P s e cur' with
                      waitingForInteraction := some e.now }
             else preClickState P s e cur') with
            spiralAttempt :=
              (if (preClickState P s e cur').waitingForInteraction.isNone
               then { preClickState P s e cur' with
                        waitingForInteraction := some e.now }
               else preClickState P s e cur').spiralAttempt + 1 } := by
      simp only [pickupStep, hf]
      rw [if_neg (by rw [timeoutTripped_sync]; simp [ht])]
      rw [if_neg (by rw [sync_lastMonsterCheck]; simp [hm])]
      rw [if_neg (by
        simp only [Bool.or_eq_true, decide_eq_true_eq, not_or, not_lt]
        exact ⟨hcx, hcy⟩)]
      rw [if_pos hhov]
      rw [if_neg (by simp [hcb])]
    refine ⟨_, hstep, ?_⟩
    split
    · simp [preClickState_spiralAttempt]
    · simp [preClickState_spiralAttempt]

/-- Witness for C7: on a snapshot where the item is not hovered, validation
fails at cycle 0 and the burst aborts with zero clicks; the step click count
is bounded by 3; and on a hover-confirmed iteration whose burst aborts, the
step continues the loop with the counter advanced. -/
theorem C7_click_burst_validation_witness :
    (pickupStep PW (initState PW dW) eW).2.count PickupEvent.clickEv ≤ 3
    ∧ (clickBurst 1 itmW ⟨0, 0⟩ (fun _ => ⟨dW, dW⟩)).2.length ≤ 0
    ∧ ∃ s', (pickupStep PW (initState PW dHov) eHov).1 = .continueLoop s'
        ∧ s'.spiralAttempt = (initState PW dHov).spiralAttempt + 1 :=
  ⟨(C7_click_burst_validation PW (initState PW dW) eW 1 itmW ⟨0, 0⟩
      (fun _ => ⟨dW, dW⟩)).1,
   (C7_click_burst_validation PW (initState PW dW) eW 1 itmW ⟨0, 0⟩
      (fun _ => ⟨dW, dW⟩)).2.2.2.1 0 (by decide)
      (fun i hi => absurd hi (Nat.not_lt_zero i)),
   (C7_click_burst_validation PW (initState PW dHov) eHov 1 itmW ⟨0, 0⟩
      (fun _ => ⟨dW, dW⟩)).2.2.2.2 itmH (by decide) (by decide) (by decide)
      (by decide) (by decide) rfl (by decide)⟩

/-- C9: the spiral step counter is monotonically non-decreasing throughout
every execution: it starts at zero, and no loop transition decreases it or
resets it — in particular an aborted hover/click burst continues the spiral
from the current counter value. -/
theorem C9_spiral_counter_monotone :
    (∀ (P : PickupParams) (d : GameData), (initState P d).spiralAttempt = 0)
    ∧ ∀ (P : PickupParams) (s : LoopState) (e : IterEnv) (s' : LoopState)
        (evs : List PickupEvent),
        pickupStep P s e = (.continueLoop s', evs) →
        s.spiralAttempt ≤ s'.spiralAttempt :=
  ⟨fun _ _ => rfl,
   fun P s e s' evs h => pickupStep_continue_mono P s e s' evs h⟩

/-- Witness for C9: the counter starts at zero and does not decrease across
a concrete continuing iteration. -/
theorem C9_spiral_counter_monotone_witness :
    (initState PW dW).spiralAttempt = 0
    ∧ (initState PW dW).spiralAttempt ≤ (stateAfter PW dW 1).spiralAttempt :=
  ⟨C9_spiral_counter_monotone.1 PW dW,
   C9_spiral_counter_monotone.2 PW (initState PW dW) eW (stateAfter PW dW 1)
     [.refreshEv, .pointerMoveEv 0 0, .refreshEv] (by decide)⟩

/-- C10: in an iteration that reaches the cursor check and reads back a
cursor position deviating from the spiral target by more than 5 pixels on
either axis, the iteration issues no click, the loop continues with the
spiral step counter unchanged — so the same spiral offset is retried next
iteration — and the counter stays at or below the interaction ceiling, so on
this retry path only the wall-clock bounds can end the loop. -/
theorem C10_cursor_mismatch_retry (P : PickupParams) (s : LoopState)
    (e : IterEnv) (cur : Item)
    (hf : findItemOnGround P.it.unitID e.d1 = some cur)
    (ht : timeoutTripped s P.startTime e.now = false)
    (hm : (decide (e.now - s.lastMonsterCheck > monsterCheckInterval)
           && hasHostileMonstersNearby cur.position e.d1) = false)
    (hmiss : abs (e.cursor.1 - (targetCursor P (preClickState P s e cur)).1) > 5
      ∨ abs (e.cursor.2 - (targetCursor P (preClickState P s e cur)).2) > 5) :
    pickupStep P s e
      = (.continueLoop (preClickState P s e cur),
         [.refreshEv,
          .pointerMoveEv (targetCursor P (preClickState P s e cur)).1
            (targetCursor P (preClickState P s e cur)).2])
    ∧ (preClickState P s e cur).spiralAttempt = s.spiralAttempt
    ∧ PickupEvent.clickEv ∉ (pickupStep P s e).2
    ∧ (preClickState P s e cur).spiralAttempt ≤ maxInteractions := by
  have hstep : pickupStep P s e
      = (.continueLoop (preClickState P s e cur),
         [.refreshEv,
          .pointerMoveEv (targetCursor P (preClickState P s e cur)).1
            (targetCursor P (preClickState P s e cur)).2]) := by
    simp only [pickupStep, hf]
    rw [if_neg (by rw [timeoutTripped_sync]; simp [ht])]
    rw [if_neg (by rw [sync_lastMonsterCheck]; simp [hm]
      )]
    rw [if_pos (by
      simp only [Bool.or_eq_true, decide_eq_true_eq]
      exact hmiss)]
  have hle : s.spiralAttempt ≤ maxInteractions := by
    simp only [timeoutTripped, Bool.or_eq_false_iff] at ht
    have := ht.1.1
    simpa using Nat.le_of_not_lt (by simpa using this)
  refine ⟨hstep, preClickState_spiralAttempt P s e cur, ?_, ?_⟩
  · rw [hstep]
    simp
  · rw [preClickState_spiralAttempt]
    exact hle

/-- Witness for C10: a cursor landing 100 pixels off target makes the
iteration continue without clicking and without advancing the counter. -/
theorem C10_cursor_mismatch_retry_witness :
    pickupStep PW (initState PW dW) eMiss
      = (.continueLoop (preClickState PW (initState PW dW) eMiss itmW),
         [.refreshEv,
          .pointerMoveEv
            (targetCursor PW (preClickState PW (initState PW dW) eMiss itmW)).1
            (targetCursor PW (preClickState PW (initState PW dW) eMiss itmW)).2])
    ∧ (preClickState PW (initState PW dW) eMiss itmW).spiralAttempt
        = (initState PW dW).spiralAttempt :=
  ⟨(C10_cursor_mismatch_retry PW (initState PW dW) eMiss itmW (by decide)
      (by decide) (by decide) (Or.inl (by decide))).1,
   (C10_cursor_mismatch_retry PW (initState PW dW) eMiss itmW (by decide)
      (by decide) (by decide) (Or.inl (by decide))).2.1⟩

/-- C8 counterexample: a run in which the item always exists on the ground
and hover is never reported returns the attempts-exhausted failure carrying
attempt count 31, which is not the attempt ceiling `maxInteractions = 30`
the claim states. -/
theorem C8_counterexample :
    (∀ i : Nat, findItemOnGround 1 ((fun _ => eW) i : IterEnv).d1
        = some itmW ∧ itmW.isHovered = false)
    ∧ (runPickup PW (fun _ => eW) 32 (initState PW dW) 0).1
        = .failure (.pickupFailed ("ring") 31)
    ∧ 31 ≠ maxInteractions := by
  refine ⟨fun i => ⟨rfl, rfl⟩, by decide, by decide⟩

/-- C8 (amended): in a run where the item always exists on the ground,
hover is never reported, the cursor always lands on the spiral target and
the wall clock stays at the start time, `PickupItem` returns the
attempts-exhausted failure, and the attempt count it carries equals one more
than the attempt ceiling (`maxInteractions + 1 = 31`), the step counter
having just exceeded the ceiling. -/
theorem C8_amended_attempt_count (P : PickupParams) (d : GameData)
    (itm : Item) (envs : Nat → IterEnv)
    (hd1 : ∀ i, (envs i).d1 = d)
    (hfind : findItemOnGround P.it.unitID d = some itm)
    (hx : itm.position.x = P.it.pos.x) (hy : itm.position.y = P.it.pos.y)
    (hhov : itm.isHovered = false)
    (hnow : ∀ i, (envs i).now = P.startTime)
    (hcur : ∀ i, (envs i).cursor = targetCursor P (stateAfter P d i)) :
    (runPickup P envs 32 (initState P d) 0).1
      = .failure (.pickupFailed P.it.name (maxInteractions + 1)) :=
  runNeverHovered P d itm envs hd1 hfind hx hy hhov hnow hcur 31 0 rfl

/-- Witness for the amended C8: the concrete never-hovered run returns the
failure carrying 31 attempts. -/
theorem C8_amended_attempt_count_witness :
    (runPickup PW (fun _ => eW) 32 (initState PW dW) 0).1
      = .failure (.pickupFailed ("ring") 31) :=
  C8_amended_attempt_count PW dW itmW (fun _ => eW) (fun _ => rfl)
    (by decide) rfl rfl rfl (fun _ => rfl) (fun i => rfl)

end KooloPickup
